import Mathlib

/-!
Verification of the Session & Exchange Management subsystem of the
AI_CHATBOT_SYSTEM repository (Flask server `src/flask_app.py`, CLI chatbot
`src/chatbot.py`), as a shallow embedding: the route bodies and helper
functions are translated into executable Lean definitions (wall-clock
timestamps become an abstract integer time axis `ℤ`; the sqlite store becomes explicit
lists of rows; Python dict/string truthiness is modelled explicitly), and
the specified properties are proved about those definitions.
-/

/-- One part of a provider candidate's content; the code only ever reads
`parts[0].text`. -/
structure MsgPart where
  text : String
deriving DecidableEq, Repr

/-- The provider response as the routes consume it: `candidates[0].finish_reason`,
`candidates[0].content.parts`, and the convenience accessor `response.text`. -/
structure ProviderResponse where
  finish_reason : Int
  content_parts : List MsgPart
  text : String
deriving DecidableEq, Repr

/-- Classified exchange outcomes (spec §4.4): the five provider-code outcomes
plus a generic provider error. -/
inductive SendOutcome where
  | Success (text : String)
  | Truncated (text : String) (warning : String)
  | BlockedSafety
  | BlockedRecitation
  | UnknownOutcome (rawCode : Int)
  | ProviderError (message : String)
deriving DecidableEq, Repr

/-- Whether an outcome is the generic provider error. -/
def SendOutcome.isProviderError : SendOutcome → Bool
  | SendOutcome.ProviderError _ => true
  | _ => false

/-- `candidate.content.parts[0].text if candidate.content.parts else ""`
(src/flask_app.py line 437). -/
def firstPartText (parts : List MsgPart) : String :=
  match parts with
  | [] => ""
  | p :: _ => p.text

/-- The finish_reason dispatch of the `/api/chat/send` route
(src/flask_app.py lines 433-444): code 1 returns `response.text` as a plain
success; code 2 returns the first content part (or the empty string when there
are no parts) together with the warning `"Antwort gekürzt"`; codes 3 and 4 are
the safety / recitation blocks; every other code is reported as an unknown
finish_reason carrying the raw code. -/
def classify_flask (resp : ProviderResponse) : SendOutcome :=
  if resp.finish_reason = 1 then
    SendOutcome.Success resp.text
  else if resp.finish_reason = 2 then
    SendOutcome.Truncated (firstPartText resp.content_parts) "Antwort gekürzt"
  else if resp.finish_reason = 3 then
    SendOutcome.BlockedSafety
  else if resp.finish_reason = 4 then
    SendOutcome.BlockedRecitation
  else
    SendOutcome.UnknownOutcome resp.finish_reason

/-- The finish_reason dispatch of `GeminiChatbot.send_message`
(src/chatbot.py lines 395-415), which reports its outcome as a string: code 2
with an empty extracted text yields the token-limit error message instead of a
truncated answer. -/
def GeminiChatbot_classify (resp : ProviderResponse) : String :=
  if resp.finish_reason = 1 then
    resp.text
  else if resp.finish_reason = 2 then
    let text := firstPartText resp.content_parts
    if text = "" then "❌ Keine Antwort (Token-Limit)" else text
  else if resp.finish_reason = 3 then
    "⚠️  Antwort wurde aus Sicherheitsgründen blockiert"
  else if resp.finish_reason = 4 then
    "⚠️  Antwort konnte nicht gegeben werden (Copyright-Problem)"
  else
    "❌ Unbekannter Fehler (finish_reason=" ++ toString resp.finish_reason ++ ")"

/-- The classification rule exactly as the spec words it (spec.md §4.4):
`1→Success`, `2→Truncated` when content is present or `ProviderError` when it
is not, `3→BlockedSafety`, `4→BlockedRecitation`, anything else
`→UnknownOutcome`. Comparison target for the classification claim; written
from the spec, not from the source. -/
def classify_specRule (resp : ProviderResponse) : SendOutcome :=
  if resp.finish_reason = 1 then
    SendOutcome.Success resp.text
  else if resp.finish_reason = 2 then
    match resp.content_parts with
    | [] => SendOutcome.ProviderError "Keine Antwort (Token-Limit)"
    | p :: _ => SendOutcome.Truncated p.text "Antwort gekürzt"
  else if resp.finish_reason = 3 then
    SendOutcome.BlockedSafety
  else if resp.finish_reason = 4 then
    SendOutcome.BlockedRecitation
  else
    SendOutcome.UnknownOutcome resp.finish_reason

/-! ## Rate limiter (src/flask_app.py lines 299-345) -/

/-- The two operation kinds guarded by the limiter; `rate_limit_store` is
initialised with exactly the keys `'start'` and `'send'`. -/
inductive RateKind where
  | start
  | send
deriving DecidableEq, Repr

/-- src/flask_app.py line 304. -/
def RATE_LIMIT_WINDOW_SECONDS : ℤ := 60

/-- src/flask_app.py line 305. -/
def RATE_LIMIT_MAX_START : Nat := 5

/-- src/flask_app.py line 306. -/
def RATE_LIMIT_MAX_SEND : Nat := 20

/-- The in-memory `rate_limit_store`: for each kind, a map from client ip to
the list of accepted-call timestamps. -/
def RateStore := RateKind → String → List ℤ

/-- The store at process start: both inner dicts empty. -/
def emptyRateStore : RateStore := fun _ _ => []

/-- The per-kind limit chosen at src/flask_app.py lines 335-338. -/
def rateLimitOf : RateKind → Nat
  | RateKind.start => RATE_LIMIT_MAX_START
  | RateKind.send => RATE_LIMIT_MAX_SEND

/-- `_clean_old_timestamps` (src/flask_app.py lines 314-317): keep only the
timestamps within the window. The Python helper reads the wall clock itself,
an instant after its caller does; both reads are modelled as the same `now`. -/
def _clean_old_timestamps (timestamps : List ℤ) (window_seconds : ℤ) (now : ℤ) : List ℤ :=
  timestamps.filter fun ts => decide (now - ts ≤ window_seconds)

/-- Python dict assignment `rate_limit_store[kind][ip] = timestamps`. -/
def updateStore (store : RateStore) (kind : RateKind) (ip : String) (v : List ℤ) : RateStore :=
  fun k i => if k = kind ∧ i = ip then v else store k i

/-- `check_rate_limit` (src/flask_app.py lines 320-345): clean the stored
timestamps for `(kind, ip)`, deny (returning the store unchanged) when the
remaining count has reached the kind's limit, otherwise record `now` and
allow. Returns the decision together with the updated store. -/
def check_rate_limit (kind : RateKind) (ip : String) (now : ℤ) (store : RateStore) :
    Bool × RateStore :=
  let timestamps := _clean_old_timestamps (store kind ip) RATE_LIMIT_WINDOW_SECONDS now
  if rateLimitOf kind ≤ timestamps.length then
    (false, store)
  else
    (true, updateStore store kind ip (timestamps ++ [now]))

/-- A sequence of `check_rate_limit` calls for one kind and ip at the given
times, returning the decisions in order and the final store. -/
def rateCallSeq (kind : RateKind) (ip : String) (times : List ℤ) (store : RateStore) :
    List Bool × RateStore :=
  match times with
  | [] => ([], store)
  | t :: rest =>
    let r := check_rate_limit kind ip t store
    let r2 := rateCallSeq kind ip rest r.2
    (r.1 :: r2.1, r2.2)

theorem clean_keep_all {window now : ℤ} :
    ∀ {l : List ℤ}, (∀ ts ∈ l, now - ts ≤ window) →
      _clean_old_timestamps l window now = l := by
  intro l h
  unfold _clean_old_timestamps
  induction l with
  | nil => rfl
  | cons a l ih =>
    rw [List.filter_cons]
    have ha : now - a ≤ window := h a (List.mem_cons_self a l)
    simp only [decide_eq_true ha, if_pos]
    rw [ih fun ts hts => h ts (List.mem_cons_of_mem a hts)]

theorem clean_keep_none {window now : ℤ} :
    ∀ {l : List ℤ}, (∀ ts ∈ l, window < now - ts) →
      _clean_old_timestamps l window now = [] := by
  intro l h
  unfold _clean_old_timestamps
  induction l with
  | nil => rfl
  | cons a l ih =>
    rw [List.filter_cons]
    have ha : ¬ (now - a ≤ window) := not_le.mpr (h a (List.mem_cons_self a l))
    simp only [decide_eq_false ha, if_neg, Bool.false_eq_true, if_false]
    exact ih fun ts hts => h ts (List.mem_cons_of_mem a hts)

theorem check_rate_limit_denied_eq (kind : RateKind) (ip : String) (now : ℤ)
    (store : RateStore)
    (h : rateLimitOf kind ≤
      (_clean_old_timestamps (store kind ip) RATE_LIMIT_WINDOW_SECONDS now).length) :
    check_rate_limit kind ip now store = (false, store) := by
  unfold check_rate_limit
  rw [if_pos h]

theorem check_rate_limit_allowed_eq (kind : RateKind) (ip : String) (now : ℤ)
    (store : RateStore) (cleaned : List ℤ)
    (hclean : _clean_old_timestamps (store kind ip) RATE_LIMIT_WINDOW_SECONDS now = cleaned)
    (hlen : cleaned.length < rateLimitOf kind) :
    check_rate_limit kind ip now store = (true, updateStore store kind ip (cleaned ++ [now])) := by
  unfold check_rate_limit
  rw [hclean, if_neg (by omega)]

theorem updateStore_same (store : RateStore) (kind : RateKind) (ip : String) (v : List ℤ) :
    updateStore store kind ip v kind ip = v := by
  simp [updateStore]

/-- C2: every rate-limit check first discards timestamps older than the
60-second window, then denies without recording once the kind's limit (5 for
session-start, 20 for message-send) is reached, and otherwise records `now`
and allows; consequently five session-start calls inside one window are all
allowed, a sixth inside the window is denied, and a call after the window has
elapsed is allowed again. -/
theorem check_rate_limit_spec :
    (∀ (kind : RateKind) (ip : String) (now : ℤ) (store : RateStore),
      (rateLimitOf kind ≤
          (_clean_old_timestamps (store kind ip) RATE_LIMIT_WINDOW_SECONDS now).length →
        check_rate_limit kind ip now store = (false, store)) ∧
      ((_clean_old_timestamps (store kind ip) RATE_LIMIT_WINDOW_SECONDS now).length <
          rateLimitOf kind →
        (check_rate_limit kind ip now store).1 = true ∧
        (check_rate_limit kind ip now store).2 kind ip =
          _clean_old_timestamps (store kind ip) RATE_LIMIT_WINDOW_SECONDS now ++ [now])) ∧
    rateLimitOf RateKind.start = 5 ∧
    rateLimitOf RateKind.send = 20 ∧
    RATE_LIMIT_WINDOW_SECONDS = 60 ∧
    (∀ t1 t2 t3 t4 t5 t6 u : ℤ,
      t1 ≤ t2 → t2 ≤ t3 → t3 ≤ t4 → t4 ≤ t5 → t5 ≤ t6 → t6 - t1 ≤ 60 → 60 < u - t5 →
      (rateCallSeq RateKind.start "client" [t1, t2, t3, t4, t5, t6, u] emptyRateStore).1 =
        [true, true, true, true, true, false, true]) := by
  refine ⟨?_, rfl, rfl, rfl, ?_⟩
  · intro kind ip now store
    constructor
    · exact check_rate_limit_denied_eq kind ip now store
    · intro h
      rw [check_rate_limit_allowed_eq kind ip now store _ rfl h]
      exact ⟨rfl, updateStore_same _ _ _ _⟩
  · intro t1 t2 t3 t4 t5 t6 u h12 h23 h34 h45 h56 hwidth hgap
    have hwin : RATE_LIMIT_WINDOW_SECONDS = 60 := rfl
    have e1 : check_rate_limit RateKind.start "client" t1 emptyRateStore =
        (true, updateStore emptyRateStore RateKind.start "client" [t1]) := by
      simpa using check_rate_limit_allowed_eq RateKind.start "client" t1 emptyRateStore
        [] rfl (by decide)
    have hc2 : _clean_old_timestamps
        (updateStore emptyRateStore RateKind.start "client" [t1] RateKind.start "client")
        RATE_LIMIT_WINDOW_SECONDS t2 = [t1] := by
      rw [updateStore_same]
      refine clean_keep_all ?_
      intro ts hts
      rw [hwin]
      rcases List.mem_singleton.mp hts with rfl
      omega
    have e2 : check_rate_limit RateKind.start "client" t2
        (updateStore emptyRateStore RateKind.start "client" [t1]) =
        (true, updateStore (updateStore emptyRateStore RateKind.start "client" [t1])
          RateKind.start "client" [t1, t2]) := by
      simpa using check_rate_limit_allowed_eq RateKind.start "client" t2
        (updateStore emptyRateStore RateKind.start "client" [t1]) [t1] hc2 (by norm_num [rateLimitOf, RATE_LIMIT_MAX_START])
    have hc3 : _clean_old_timestamps
        (updateStore (updateStore emptyRateStore RateKind.start "client" [t1])
          RateKind.start "client" [t1, t2] RateKind.start "client")
        RATE_LIMIT_WINDOW_SECONDS t3 = [t1, t2] := by
      rw [updateStore_same]
      refine clean_keep_all ?_
      intro ts hts
      rw [hwin]
      rcases List.mem_cons.mp hts with rfl | hts
      · omega
      rcases List.mem_singleton.mp hts with rfl
      omega
    have e3 : check_rate_limit RateKind.start "client" t3
        (updateStore (updateStore emptyRateStore RateKind.start "client" [t1])
          RateKind.start "client" [t1, t2]) =
        (true, updateStore (updateStore (updateStore emptyRateStore RateKind.start "client" [t1])
          RateKind.start "client" [t1, t2]) RateKind.start "client" [t1, t2, t3]) := by
      simpa using check_rate_limit_allowed_eq RateKind.start "client" t3
        (updateStore (updateStore emptyRateStore RateKind.start "client" [t1])
          RateKind.start "client" [t1, t2]) [t1, t2] hc3 (by norm_num [rateLimitOf, RATE_LIMIT_MAX_START])
    have hc4 : _clean_old_timestamps
        (updateStore (updateStore (updateStore emptyRateStore RateKind.start "client" [t1])
          RateKind.start "client" [t1, t2]) RateKind.start "client" [t1, t2, t3]
          RateKind.start "client")
        RATE_LIMIT_WINDOW_SECONDS t4 = [t1, t2, t3] := by
      rw [updateStore_same]
      refine clean_keep_all ?_
      intro ts hts
      rw [hwin]
      rcases List.mem_cons.mp hts with rfl | hts
      · omega
      rcases List.mem_cons.mp hts with rfl | hts
      · omega
      rcases List.mem_singleton.mp hts with rfl
      omega
    have e4 : check_rate_limit RateKind.start "client" t4
        (updateStore (updateStore (updateStore emptyRateStore RateKind.start "client" [t1])
          RateKind.start "client" [t1, t2]) RateKind.start "client" [t1, t2, t3]) =
        (true, updateStore (updateStore (updateStore (updateStore emptyRateStore
          RateKind.start "client" [t1]) RateKind.start "client" [t1, t2])
          RateKind.start "client" [t1, t2, t3]) RateKind.start "client" [t1, t2, t3, t4]) := by
      simpa using check_rate_limit_allowed_eq RateKind.start "client" t4
        (updateStore (updateStore (updateStore emptyRateStore RateKind.start "client" [t1])
          RateKind.start "client" [t1, t2]) RateKind.start "client" [t1, t2, t3])
        [t1, t2, t3] hc4 (by norm_num [rateLimitOf, RATE_LIMIT_MAX_START])
    have hc5 : _clean_old_timestamps
        (updateStore (updateStore (updateStore (updateStore emptyRateStore
          RateKind.start "client" [t1]) RateKind.start "client" [t1, t2])
          RateKind.start "client" [t1, t2, t3]) RateKind.start "client" [t1, t2, t3, t4]
          RateKind.start "client")
        RATE_LIMIT_WINDOW_SECONDS t5 = [t1, t2, t3, t4] := by
      rw [updateStore_same]
      refine clean_keep_all ?_
      intro ts hts
      rw [hwin]
      rcases List.mem_cons.mp hts with rfl | hts
      · omega
      rcases List.mem_cons.mp hts with rfl | hts
      · omega
      rcases List.mem_cons.mp hts with rfl | hts
      · omega
      rcases List.mem_singleton.mp hts with rfl
      omega
    have e5 : check_rate_limit RateKind.start "client" t5
        (updateStore (updateStore (updateStore (updateStore emptyRateStore
          RateKind.start "client" [t1]) RateKind.start "client" [t1, t2])
          RateKind.start "client" [t1, t2, t3]) RateKind.start "client" [t1, t2, t3, t4]) =
        (true, updateStore (updateStore (updateStore (updateStore (updateStore emptyRateStore
          RateKind.start "client" [t1]) RateKind.start "client" [t1, t2])
          RateKind.start "client" [t1, t2, t3]) RateKind.start "client" [t1, t2, t3, t4])
          RateKind.start "client" [t1, t2, t3, t4, t5]) := by
      simpa using check_rate_limit_allowed_eq RateKind.start "client" t5
        (updateStore (updateStore (updateStore (updateStore emptyRateStore
          RateKind.start "client" [t1]) RateKind.start "client" [t1, t2])
          RateKind.start "client" [t1, t2, t3]) RateKind.start "client" [t1, t2, t3, t4])
        [t1, t2, t3, t4] hc5 (by norm_num [rateLimitOf, RATE_LIMIT_MAX_START])
    have hc6 : _clean_old_timestamps
        (updateStore (updateStore (updateStore (updateStore (updateStore emptyRateStore
          RateKind.start "client" [t1]) RateKind.start "client" [t1, t2])
          RateKind.start "client" [t1, t2, t3]) RateKind.start "client" [t1, t2, t3, t4])
          RateKind.start "client" [t1, t2, t3, t4, t5] RateKind.start "client")
        RATE_LIMIT_WINDOW_SECONDS t6 = [t1, t2, t3, t4, t5] := by
      rw [updateStore_same]
      refine clean_keep_all ?_
      intro ts hts
      rw [hwin]
      rcases List.mem_cons.mp hts with rfl | hts
      · omega
      rcases List.mem_cons.mp hts with rfl | hts
      · omega
      rcases List.mem_cons.mp hts with rfl | hts
      · omega
      rcases List.mem_cons.mp hts with rfl | hts
      · omega
      rcases List.mem_singleton.mp hts with rfl
      omega
    have e6 : check_rate_limit RateKind.start "client" t6
        (updateStore (updateStore (updateStore (updateStore (updateStore emptyRateStore
          RateKind.start "client" [t1]) RateKind.start "client" [t1, t2])
          RateKind.start "client" [t1, t2, t3]) RateKind.start "client" [t1, t2, t3, t4])
          RateKind.start "client" [t1, t2, t3, t4, t5]) =
        (false, updateStore (updateStore (updateStore (updateStore (updateStore emptyRateStore
          RateKind.start "client" [t1]) RateKind.start "client" [t1, t2])
          RateKind.start "client" [t1, t2, t3]) RateKind.start "client" [t1, t2, t3, t4])
          RateKind.start "client" [t1, t2, t3, t4, t5]) := by
      refine check_rate_limit_denied_eq RateKind.start "client" t6 _ ?_
      rw [hc6]
      norm_num [rateLimitOf, RATE_LIMIT_MAX_START]
    have hc7 : _clean_old_timestamps
        (updateStore (updateStore (updateStore (updateStore (updateStore emptyRateStore
          RateKind.start "client" [t1]) RateKind.start "client" [t1, t2])
          RateKind.start "client" [t1, t2, t3]) RateKind.start "client" [t1, t2, t3, t4])
          RateKind.start "client" [t1, t2, t3, t4, t5] RateKind.start "client")
        RATE_LIMIT_WINDOW_SECONDS u = [] := by
      rw [updateStore_same]
      refine clean_keep_none ?_
      intro ts hts
      rw [hwin]
      rcases List.mem_cons.mp hts with rfl | hts
      · omega
      rcases List.mem_cons.mp hts with rfl | hts
      · omega
      rcases List.mem_cons.mp hts with rfl | hts
      · omega
      rcases List.mem_cons.mp hts with rfl | hts
      · omega
      rcases List.mem_singleton.mp hts with rfl
      omega
    have e7 : (check_rate_limit RateKind.start "client" u
        (updateStore (updateStore (updateStore (updateStore (updateStore emptyRateStore
          RateKind.start "client" [t1]) RateKind.start "client" [t1, t2])
          RateKind.start "client" [t1, t2, t3]) RateKind.start "client" [t1, t2, t3, t4])
          RateKind.start "client" [t1, t2, t3, t4, t5])).1 = true := by
      rw [check_rate_limit_allowed_eq RateKind.start "client" u _ [] hc7 (by decide)]
    simp only [rateCallSeq, e1, e2, e3, e4, e5, e6, e7]

/-! ## Personas (src/flask_app.py lines 134-172) -/

/-- One persona entry of the static `PERSONAS` table. -/
structure Persona where
  name : String
  instruction : String
  temperature : ℚ
  top_p : ℚ
  top_k : Nat
deriving Repr

/-- The `PERSONAS` table, verbatim from src/flask_app.py lines 134-172. -/
def PERSONAS : List (String × Persona) :=
  [("1", ⟨"Data Analyst Expert",
    "Du bist ein erfahrener Data Analyst mit 10 Jahren Erfahrung.\n        - Antworte präzise, faktenbasiert und detailliert\n        - Verwende Fachbegriffe, aber erkläre sie\n        - Gib konkrete Beispiele und Use Cases",
    3/10, 8/10, 40⟩),
   ("2", ⟨"Creative Storyteller",
    "Du bist ein kreativer Storyteller und Autor.\n        - Schreibe kreative, emotional ansprechende Geschichten\n        - Verwende vielfältige Vokabeln und poetische Sprache",
    9/10, 95/100, 100⟩),
   ("3", ⟨"Technical Code Assistant",
    "Du bist ein Senior Software Engineer und Code Expert.\n        - Schreib präzisen, produktiven Code\n        - Erkläre Code-Logik detailliert",
    2/10, 7/10, 30⟩),
   ("4", ⟨"Business Consultant",
    "Du bist ein Unternehmensberater mit Fokus auf Business Strategy.\n        - Gib strategische Ratschläge für Geschäftsfragen\n        - Denk in ROI, KPIs und Business Metriken",
    4/10, 85/100, 50⟩)]

/-- Dict lookup `PERSONAS[key]`. -/
def lookupPersona (key : String) : Option Persona :=
  (PERSONAS.find? fun p => p.1 == key).map Prod.snd

/-! ## Persistence store (src/flask_app.py lines 37-127)

The sqlite database is modelled as explicit lists of rows; the
`AUTOINCREMENT` primary key of `conversations` is the `nextConvId` counter,
and `ORDER BY timestamp ASC` is the stable insertion sort on the timestamp
column (sqlite scans the unindexed `messages` table in rowid order, so rows
with equal keys stay in insertion order). ISO timestamp strings, which
compare lexicographically exactly as instants, are modelled as `ℤ`. -/

/-- One entry of a genai chat object's `history`: the code reads
`message.role` and `message.parts[0].text`. -/
structure Turn where
  role : String
  text : String
deriving DecidableEq, Repr

/-- A row of the `conversations` table (src/flask_app.py lines 42-50). -/
structure ConversationRow where
  id : Nat
  session_name : String
  persona : String
  created_at : ℤ
  updated_at : ℤ
deriving DecidableEq, Repr

/-- A row of the `messages` table (src/flask_app.py lines 52-61). -/
structure MessageRow where
  conversation_id : Nat
  role : String
  content : String
  timestamp : ℤ
deriving DecidableEq, Repr

/-- The database: both tables plus the autoincrement counter. -/
structure DB where
  conversations : List ConversationRow
  messages : List MessageRow
  nextConvId : Nat
deriving DecidableEq, Repr

/-- The freshly created database (`create_database`): sqlite autoincrement
ids start at 1. -/
def emptyDB : DB := ⟨[], [], 1⟩

/-- `save_conversation` (src/flask_app.py lines 67-92): take one timestamp,
insert one `conversations` row carrying it as both `created_at` and
`updated_at`, remember `cursor.lastrowid`, insert one `messages` row per
history entry — each with that same timestamp — and return the new id. -/
def save_conversation (session_name persona : String) (history : List Turn) (now : ℤ)
    (db : DB) : Nat × DB :=
  let conversation_id := db.nextConvId
  let convRow : ConversationRow := ⟨conversation_id, session_name, persona, now, now⟩
  let msgRows := history.map fun m => MessageRow.mk conversation_id m.role m.text now
  (conversation_id,
    ⟨db.conversations ++ [convRow], db.messages ++ msgRows, conversation_id + 1⟩)

/-- `ORDER BY timestamp ASC` over `messages` rows. -/
def orderByTimestampAsc (rows : List MessageRow) : List MessageRow :=
  List.insertionSort (fun a b => a.timestamp ≤ b.timestamp) rows

/-- `load_conversation_history` (src/flask_app.py lines 112-127):
`SELECT role, content, timestamp FROM messages WHERE conversation_id = ?
ORDER BY timestamp ASC`. -/
def load_conversation_history (conversation_id : Nat) (db : DB) :
    List (String × String × ℤ) :=
  (orderByTimestampAsc (db.messages.filter fun m => m.conversation_id == conversation_id)).map
    fun m => (m.role, m.content, m.timestamp)

/-! ## Server state and routes (src/flask_app.py lines 25-30, 348-486)

The genai chat objects are mutable and aliased: `sessions[sid]['chat']` and
`active_chat` may refer to the same object. They are therefore modelled by
identity: `chats` maps a chat id to the object's current history, and both
the session entries and `active_chat` hold chat ids. -/

/-- One value of the `sessions` dict (src/flask_app.py line 30). -/
structure SessionData where
  chat : Nat
  persona : String
  session_name : String
deriving DecidableEq, Repr

/-- The module-level mutable state of src/flask_app.py (lines 25-30) plus the
database. -/
structure AppState where
  chats : List (Nat × List Turn)
  nextChatId : Nat
  active_chat : Option Nat
  current_persona : Option String
  current_session_name : Option String
  sessions : List (String × SessionData)
  db : DB
deriving DecidableEq, Repr

/-- The state at process start. -/
def initialAppState : AppState :=
  ⟨[], 0, none, none, none, [], emptyDB⟩

/-- Python truthiness of an optional string: `None` and `""` are falsy. -/
def truthyOptStr : Option String → Bool
  | none => false
  | some s => !(s == "")

/-- `sessions.get(sid)`. -/
def lookupSession (sessions : List (String × SessionData)) (sid : String) :
    Option SessionData :=
  (sessions.find? fun p => p.1 == sid).map Prod.snd

/-- Python dict assignment `sessions[sid] = v`: overwrite in place if the key
exists, append otherwise. -/
def setSession (sessions : List (String × SessionData)) (sid : String) (v : SessionData) :
    List (String × SessionData) :=
  if sessions.any fun p => p.1 == sid then
    sessions.map fun p => if p.1 == sid then (sid, v) else p
  else
    sessions ++ [(sid, v)]

/-- Read a chat object's history by chat id. -/
def chatHistory (chats : List (Nat × List Turn)) (c : Nat) : List Turn :=
  ((chats.find? fun p => p.1 == c).map Prod.snd).getD []

/-- Append turns to the history of chat `c` (in-place mutation of the shared
object, visible through every alias). -/
def appendChat (chats : List (Nat × List Turn)) (c : Nat) (ts : List Turn) :
    List (Nat × List Turn) :=
  chats.map fun p => if p.1 == c then (p.1, p.2 ++ ts) else p

/-- Outcomes of the `/api/chat/start` route, by their `code` fields. -/
inductive StartResult where
  | rateLimited
  | missingApiKey
  | invalidPersona
  | missingSessionName
  | startException (message : String)
  | started (session_id : String)
deriving DecidableEq, Repr

/-- `api_chat_start` (src/flask_app.py lines 348-402). Request fields arrive
as optional strings (`data.get`); the provider-context construction
(`genai.GenerativeModel` plus `model.start_chat(history=[])`) is an external
call that either succeeds, producing a chat object with empty history, or
raises — it is passed in as an `Except`, and the uuid4 session id as
`new_session_id`. The order in the code: rate limit, API-key presence,
persona lookup, session-name truthiness, construction; only then are the
session dict and the three module-level current-chat globals overwritten.
Any construction failure is caught and returned as `START_EXCEPTION` with
the exception's message (the route never lets it escape). -/
def api_chat_start (client_ip : String) (api_key_present : Bool)
    (persona_key session_name : Option String)
    (model_construction : Except String Unit) (new_session_id : String) (now : ℤ)
    (st : AppState) (rs : RateStore) : StartResult × AppState × RateStore :=
  let rate := check_rate_limit RateKind.start client_ip now rs
  if rate.1 = false then (StartResult.rateLimited, st, rate.2)
  else if api_key_present = false then (StartResult.missingApiKey, st, rate.2)
  else
    match persona_key with
    | none => (StartResult.invalidPersona, st, rate.2)
    | some pk =>
      match lookupPersona pk with
      | none => (StartResult.invalidPersona, st, rate.2)
      | some _persona =>
        if truthyOptStr session_name = false then
          (StartResult.missingSessionName, st, rate.2)
        else
          match model_construction with
          | Except.error e => (StartResult.startException e, st, rate.2)
          | Except.ok _ =>
            let chatId := st.nextChatId
            let sn := session_name.getD ""
            (StartResult.started new_session_id,
              { st with
                chats := st.chats ++ [(chatId, [])],
                nextChatId := chatId + 1,
                sessions := setSession st.sessions new_session_id ⟨chatId, pk, sn⟩,
                active_chat := some chatId,
                current_persona := some pk,
                current_session_name := some sn },
              rate.2)

/-- Outcomes of the `/api/chat/send` route, by their `code` fields; the
finish-reason dispatch outcomes are carried as a classified `SendOutcome`. -/
inductive SendResult where
  | rateLimited
  | missingMessage
  | unknownSession
  | noActiveChat
  | classified (outcome : SendOutcome)
  | sendException (message : String)
deriving DecidableEq, Repr

/-- The assistant text recorded into the chat history for an outcome: present
exactly on the plain and the truncated success. -/
def assistantText : SendOutcome → Option String
  | SendOutcome.Success t => some t
  | SendOutcome.Truncated t _ => some t
  | _ => none

/-- The provider exchange on a resolved chat object. Modelled from the spec
(§4.4 steps 4-7, §5): the chat object is owned by the external genai SDK,
which is not in the repository; per the spec the user turn is recorded
before the provider call and stands even when the exchange fails, and the
assistant turn is recorded only on a plain or truncated success. -/
def chatSendMessage (c : Nat) (message : String)
    (exchange : Except String ProviderResponse) (st : AppState) (rs : RateStore) :
    SendResult × AppState × RateStore :=
  let st1 := { st with chats := appendChat st.chats c [⟨"user", message⟩] }
  match exchange with
  | Except.error e => (SendResult.sendException e, st1, rs)
  | Except.ok resp =>
    let outcome := classify_flask resp
    match assistantText outcome with
    | some t =>
      (SendResult.classified outcome,
        { st1 with chats := appendChat st1.chats c [⟨"model", t⟩] }, rs)
    | none => (SendResult.classified outcome, st1, rs)

/-- `api_chat_send` (src/flask_app.py lines 404-447). The order in the code:
rate limit, message truthiness, session resolution (a truthy `session_id` is
looked up in `sessions` — unknown ids are rejected; a missing or empty one
falls back to the module-level `active_chat`, rejected when that is unset),
then the provider exchange and the finish-reason dispatch. Exceptions from
the exchange are caught and returned as `SEND_EXCEPTION`. -/
def api_chat_send (client_ip : String) (message session_id : Option String)
    (exchange : Except String ProviderResponse) (now : ℤ)
    (st : AppState) (rs : RateStore) : SendResult × AppState × RateStore :=
  let rate := check_rate_limit RateKind.send client_ip now rs
  if rate.1 = false then (SendResult.rateLimited, st, rate.2)
  else if truthyOptStr message = false then (SendResult.missingMessage, st, rate.2)
  else if truthyOptStr session_id then
    match lookupSession st.sessions (session_id.getD "") with
    | none => (SendResult.unknownSession, st, rate.2)
    | some sess => chatSendMessage sess.chat (message.getD "") exchange st rate.2
  else
    match st.active_chat with
    | none => (SendResult.noActiveChat, st, rate.2)
    | some c => chatSendMessage c (message.getD "") exchange st rate.2

/-- Outcomes of the `/api/chat/save` route. -/
inductive SaveResult where
  | noActiveChatToSave
  | saveException (message : String)
  | saved (conversation_id : Nat)
deriving DecidableEq, Repr

/-- `save_chat` (src/flask_app.py lines 463-486). The route takes no request
parameters at all: it reads only the module-level `active_chat`,
`current_persona` and `current_session_name`. When any of the three is falsy
it answers `Kein aktiver Chat zum Speichern` (HTTP 400) without touching the
database; otherwise it writes the active chat's full history through
`save_conversation` and returns the new conversation id. The history is not
required to be non-empty. A missing persona key would raise and be answered
as a caught exception. -/
def save_chat (now : ℤ) (st : AppState) : SaveResult × AppState :=
  if !st.active_chat.isSome || !truthyOptStr st.current_persona ||
      !truthyOptStr st.current_session_name then
    (SaveResult.noActiveChatToSave, st)
  else
    match lookupPersona (st.current_persona.getD "") with
    | none => (SaveResult.saveException "KeyError", st)
    | some persona =>
      let history := chatHistory st.chats (st.active_chat.getD 0)
      let r := save_conversation (st.current_session_name.getD "") persona.name history now st.db
      (SaveResult.saved r.1, { st with db := r.2 })

/-- `save_chat` applied once per entry of `times` (repeated saves). -/
def saveIter (times : List ℤ) (st : AppState) : AppState :=
  match times with
  | [] => st
  | t :: rest => saveIter rest (save_chat t st).2

/-! ## Claim theorems -/

/-- C1, counterexample: the spec's classification rule sends completion code 2
with no content to `ProviderError`, but the server's exchange classification
(`/api/chat/send`) answers a truncated success carrying the empty string and
the warning — it never produces `ProviderError` for code 2. -/
theorem classification_code2_no_content_counterexample :
    classify_flask ⟨2, [], ""⟩ = SendOutcome.Truncated "" "Antwort gekürzt" ∧
    (classify_flask ⟨2, [], ""⟩).isProviderError = false ∧
    (classify_specRule ⟨2, [], ""⟩).isProviderError = true ∧
    classify_flask ⟨2, [], ""⟩ ≠ classify_specRule ⟨2, [], ""⟩ := by
  decide

/-- C1, amended: the server's exchange classification maps code 1 to
`Success response.text`, code 2 — content present or not — to `Truncated`
(first part's text, or the empty string, plus the warning), 3 to
`BlockedSafety`, 4 to `BlockedRecitation`, and every other code to
`UnknownOutcome` with the raw code, for every provider response; only the CLI
chatbot (`GeminiChatbot.send_message`) answers code 2 with no content by a
provider-error message. -/
theorem classify_flask_spec (resp : ProviderResponse) :
    (resp.finish_reason = 1 → classify_flask resp = SendOutcome.Success resp.text) ∧
    (resp.finish_reason = 2 →
      classify_flask resp =
        SendOutcome.Truncated (firstPartText resp.content_parts) "Antwort gekürzt") ∧
    (resp.finish_reason = 3 → classify_flask resp = SendOutcome.BlockedSafety) ∧
    (resp.finish_reason = 4 → classify_flask resp = SendOutcome.BlockedRecitation) ∧
    (resp.finish_reason ≠ 1 → resp.finish_reason ≠ 2 → resp.finish_reason ≠ 3 →
      resp.finish_reason ≠ 4 →
      classify_flask resp = SendOutcome.UnknownOutcome resp.finish_reason) ∧
    (resp.finish_reason = 2 → resp.content_parts = [] →
      GeminiChatbot_classify resp = "❌ Keine Antwort (Token-Limit)") := by
  refine ⟨?_, ?_, ?_, ?_, ?_, ?_⟩
  · intro h; simp [classify_flask, h]
  · intro h; simp [classify_flask, h]
  · intro h; simp [classify_flask, h]
  · intro h; simp [classify_flask, h]
  · intro h1 h2 h3 h4; simp [classify_flask, h1, h2, h3, h4]
  · intro h hp; simp [GeminiChatbot_classify, h, hp, firstPartText]

/-- Witness for C1's amended theorem at the spec's own examples. -/
theorem classify_flask_spec_witness :
    classify_flask ⟨1, [⟨"Hello"⟩], "Hello"⟩ = SendOutcome.Success "Hello" ∧
    classify_flask ⟨99, [], ""⟩ = SendOutcome.UnknownOutcome 99 ∧
    GeminiChatbot_classify ⟨2, [], ""⟩ = "❌ Keine Antwort (Token-Limit)" :=
  ⟨(classify_flask_spec ⟨1, [⟨"Hello"⟩], "Hello"⟩).1 rfl,
   (classify_flask_spec ⟨99, [], ""⟩).2.2.2.2.1 (by decide) (by decide) (by decide) (by decide),
   (classify_flask_spec ⟨2, [], ""⟩).2.2.2.2.2 rfl rfl⟩

/-- Witness for C2's theorem: a concrete denial at a full window, a concrete
allowance on the empty store, and the concrete 5-allowed / 1-denied /
1-allowed-after-window start scenario. -/
theorem check_rate_limit_spec_witness :
    check_rate_limit RateKind.start "c" 70 (fun _ _ => [15, 20, 30, 40, 50]) =
      (false, fun _ _ => [15, 20, 30, 40, 50]) ∧
    (check_rate_limit RateKind.send "c" 100 emptyRateStore).1 = true ∧
    (rateCallSeq RateKind.start "client" [0, 10, 20, 30, 40, 50, 120] emptyRateStore).1 =
      [true, true, true, true, true, false, true] :=
  ⟨(check_rate_limit_spec.1 RateKind.start "c" 70 (fun _ _ => [15, 20, 30, 40, 50])).1
      (by decide),
   ((check_rate_limit_spec.1 RateKind.send "c" 100 emptyRateStore).2 (by decide)).1,
   check_rate_limit_spec.2.2.2.2 0 10 20 30 40 50 120 (by decide) (by decide) (by decide)
     (by decide) (by decide) (by decide) (by decide)⟩

/-- Helper: on a state whose three current-chat globals are truthy and whose
current persona key resolves, `save_chat` answers the fresh conversation id
and appends exactly one `conversations` row and one `messages` row per turn
of the active chat's history, all stamped with the single save-time
timestamp; nothing else changes. -/
theorem save_chat_valid_eq (now : ℤ) (st : AppState) (p : Persona)
    (h : (!st.active_chat.isSome || !truthyOptStr st.current_persona ||
      !truthyOptStr st.current_session_name) = false)
    (hp : lookupPersona (st.current_persona.getD "") = some p) :
    save_chat now st = (SaveResult.saved st.db.nextConvId,
      { st with db :=
        ⟨st.db.conversations ++ [⟨st.db.nextConvId, st.current_session_name.getD "",
            p.name, now, now⟩],
          st.db.messages ++ (chatHistory st.chats (st.active_chat.getD 0)).map
            (fun m => MessageRow.mk st.db.nextConvId m.role m.text now),
          st.db.nextConvId + 1⟩ }) := by
  unfold save_chat
  rw [if_neg (by simp at h ⊢; exact ⟨⟨Option.isSome_iff_ne_none.mp h.1.1, h.1.2⟩, h.2⟩), hp]
  rfl

/-- C3, counterexample: a started session whose history is still empty — the
session exists in the registry and is the implicit current chat — is saved
successfully: the route answers a fresh conversation id and writes a
`conversations` row with zero messages, instead of the `NOTHING_TO_SAVE`
error the claim requires for an empty history. -/
theorem save_empty_history_counterexample :
    (save_chat 5 ⟨[(0, [])], 1, some 0, some "1", some "S",
        [("sid", ⟨0, "1", "S"⟩)], emptyDB⟩).1 = SaveResult.saved 1 ∧
    (save_chat 5 ⟨[(0, [])], 1, some 0, some "1", some "S",
        [("sid", ⟨0, "1", "S"⟩)], emptyDB⟩).2.db.conversations =
      [⟨1, "S", "Data Analyst Expert", 5, 5⟩] ∧
    (save_chat 5 ⟨[(0, [])], 1, some 0, some "1", some "S",
        [("sid", ⟨0, "1", "S"⟩)], emptyDB⟩).2.db.messages = [] := by
  decide

/-- C3, amended: the save route reads only the implicit current-chat globals
(it takes no session id); it fails — answering the generic
no-active-chat-to-save error, with nothing written — exactly when one of the
three globals is falsy, and succeeds with a fresh conversation id whenever
they are all truthy and the persona key resolves, regardless of whether the
turn history is empty (an empty history yields a conversation record with no
messages). -/
theorem save_chat_success_iff_globals (now : ℤ) (st : AppState) (p : Persona) :
    ((!st.active_chat.isSome || !truthyOptStr st.current_persona ||
        !truthyOptStr st.current_session_name) = true →
      save_chat now st = (SaveResult.noActiveChatToSave, st)) ∧
    ((!st.active_chat.isSome || !truthyOptStr st.current_persona ||
        !truthyOptStr st.current_session_name) = false →
      lookupPersona (st.current_persona.getD "") = some p →
      (save_chat now st).1 = SaveResult.saved st.db.nextConvId ∧
      (save_chat now st).2.db.conversations.length = st.db.conversations.length + 1 ∧
      (save_chat now st).2.db.messages.length =
        st.db.messages.length + (chatHistory st.chats (st.active_chat.getD 0)).length) := by
  constructor
  · intro h
    unfold save_chat
    rw [if_pos h]
  · intro h hp
    rw [save_chat_valid_eq now st p h hp]
    refine ⟨rfl, ?_, ?_⟩ <;> simp

/-- Witness for C3's amended theorem: the initial state has no active chat
and is answered by the error with nothing written; a state with a one-turn
active chat is saved under conversation id 1. -/
theorem save_chat_success_iff_globals_witness :
    save_chat 3 initialAppState = (SaveResult.noActiveChatToSave, initialAppState) ∧
    (save_chat 3 ⟨[(0, [⟨"user", "Hi"⟩])], 1, some 0, some "2", some "N",
        [], emptyDB⟩).1 = SaveResult.saved 1 :=
  ⟨(save_chat_success_iff_globals 3 initialAppState ⟨"", "", 0, 0, 0⟩).1 (by decide),
   ((save_chat_success_iff_globals 3 ⟨[(0, [⟨"user", "Hi"⟩])], 1, some 0, some "2", some "N",
        [], emptyDB⟩ _).2 (by decide) rfl).1⟩

/-- Helper: in a database whose message rows all belong to already-allocated
conversation ids, selecting the rows of the conversation just written by
`save_conversation` returns exactly the rows built from the saved history. -/
theorem save_messages_filter (sn pn : String) (history : List Turn) (now : ℤ) (db : DB)
    (hwf : ∀ m ∈ db.messages, m.conversation_id < db.nextConvId) :
    (save_conversation sn pn history now db).2.messages.filter
        (fun m => m.conversation_id == (save_conversation sn pn history now db).1) =
      history.map (fun m => MessageRow.mk db.nextConvId m.role m.text now) := by
  simp only [save_conversation]
  rw [List.filter_append]
  have h1 : db.messages.filter (fun m => m.conversation_id == db.nextConvId) = [] := by
    refine List.filter_eq_nil_iff.mpr ?_
    intro m hm
    have := hwf m hm
    simp only [beq_iff_eq]
    omega
  have h2 : (history.map fun m => MessageRow.mk db.nextConvId m.role m.text now).filter
      (fun m => m.conversation_id == db.nextConvId) =
      history.map fun m => MessageRow.mk db.nextConvId m.role m.text now := by
    refine List.filter_eq_self.mpr ?_
    intro a ha
    obtain ⟨m, hm, rfl⟩ := List.mem_map.mp ha
    simp
  rw [h1, h2, List.nil_append]

/-- Helper: message rows with one common timestamp are sorted for
`ORDER BY timestamp ASC`. -/
theorem sorted_of_const_timestamp (t : ℤ) :
    ∀ (rows : List MessageRow), (∀ m ∈ rows, m.timestamp = t) →
      List.Sorted (fun a b : MessageRow => a.timestamp ≤ b.timestamp) rows := by
  intro rows h
  induction rows with
  | nil => exact List.sorted_nil
  | cons a l ih =>
    rw [List.sorted_cons]
    refine ⟨?_, ih fun x hx => h x (List.mem_cons_of_mem a hx)⟩
    intro b hb
    rw [h a (List.mem_cons_self a l), h b (List.mem_cons_of_mem a hb)]

/-- Helper: reading back the conversation just written by `save_conversation`
returns the saved history verbatim, in order, all rows carrying the single
save-time timestamp. -/
theorem load_conversation_history_after_save (sn pn : String) (history : List Turn)
    (now : ℤ) (db : DB)
    (hwf : ∀ m ∈ db.messages, m.conversation_id < db.nextConvId) :
    load_conversation_history (save_conversation sn pn history now db).1
        (save_conversation sn pn history now db).2 =
      history.map fun m => (m.role, m.text, now) := by
  have hfilter := save_messages_filter sn pn history now db hwf
  simp only [save_conversation] at hfilter ⊢
  simp only [load_conversation_history, orderByTimestampAsc]
  rw [hfilter]
  rw [List.Sorted.insertionSort_eq (sorted_of_const_timestamp now _ ?_)]
  · rw [List.map_map]
    rfl
  · intro m hm
    obtain ⟨x, hx, rfl⟩ := List.mem_map.mp hm
    rfl

/-- C4: saving any session history and then reading the persisted
conversation's messages returns exactly the session's turns, role and text
verbatim and in the original append order. -/
theorem save_then_load_round_trip (sessionName personaName : String) (history : List Turn)
    (now : ℤ) (db : DB)
    (hwf : ∀ m ∈ db.messages, m.conversation_id < db.nextConvId)
    (_hne : history ≠ []) :
    (load_conversation_history (save_conversation sessionName personaName history now db).1
        (save_conversation sessionName personaName history now db).2).map
      (fun r => (r.1, r.2.1)) = history.map fun m => (m.role, m.text) := by
  rw [load_conversation_history_after_save sessionName personaName history now db hwf,
    List.map_map]
  rfl

/-- Witness for C4 at the spec's end-to-end example history. -/
theorem save_then_load_round_trip_witness :
    (load_conversation_history
        (save_conversation "Test" "Data Analyst Expert"
          [⟨"user", "Hi"⟩, ⟨"model", "Hello there"⟩] 7 emptyDB).1
        (save_conversation "Test" "Data Analyst Expert"
          [⟨"user", "Hi"⟩, ⟨"model", "Hello there"⟩] 7 emptyDB).2).map
      (fun r => (r.1, r.2.1)) = [("user", "Hi"), ("model", "Hello there")] :=
  save_then_load_round_trip "Test" "Data Analyst Expert"
    [⟨"user", "Hi"⟩, ⟨"model", "Hello there"⟩] 7 emptyDB (by decide) (by decide)

/-- C10: one timestamp taken at save time is stored as both `created_at` and
`updated_at` of the conversation row and as the timestamp of every persisted
message of that save, and retrieval — ordered by this all-equal timestamp —
returns the rows in their insertion order, each carrying that timestamp. -/
theorem save_single_timestamp (sessionName personaName : String) (history : List Turn)
    (now : ℤ) (db : DB)
    (hwf : ∀ m ∈ db.messages, m.conversation_id < db.nextConvId) :
    (save_conversation sessionName personaName history now db).2.conversations =
      db.conversations ++ [⟨db.nextConvId, sessionName, personaName, now, now⟩] ∧
    (∀ m ∈ (save_conversation sessionName personaName history now db).2.messages.filter
        (fun m => m.conversation_id == (save_conversation sessionName personaName history now db).1),
      m.timestamp = now) ∧
    load_conversation_history (save_conversation sessionName personaName history now db).1
        (save_conversation sessionName personaName history now db).2 =
      history.map fun m => (m.role, m.text, now) := by
  refine ⟨rfl, ?_, load_conversation_history_after_save sessionName personaName history now db hwf⟩
  intro m hm
  rw [save_messages_filter sessionName personaName history now db hwf] at hm
  obtain ⟨x, hx, rfl⟩ := List.mem_map.mp hm
  rfl

/-- Witness for C10 at a concrete one-turn history. -/
theorem save_single_timestamp_witness :
    (save_conversation "S" "P" [⟨"user", "Hi"⟩] 9 emptyDB).2.conversations =
      [⟨1, "S", "P", 9, 9⟩] ∧
    load_conversation_history 1 (save_conversation "S" "P" [⟨"user", "Hi"⟩] 9 emptyDB).2 =
      [("user", "Hi", 9)] :=
  ⟨(save_single_timestamp "S" "P" [⟨"user", "Hi"⟩] 9 emptyDB (by decide)).1,
   (save_single_timestamp "S" "P" [⟨"user", "Hi"⟩] 9 emptyDB (by decide)).2.2⟩

/-- The persisted transcript of one conversation id within a message table. -/
def transcriptRows (msgs : List MessageRow) (cid : Nat) : List (String × String) :=
  (msgs.filter fun m => m.conversation_id == cid).map fun m => (m.role, m.content)

/-- The persisted transcript of one conversation id. -/
def transcriptOf (db : DB) (cid : Nat) : List (String × String) :=
  transcriptRows db.messages cid

theorem transcriptRows_append_irrelevant (msgs new : List MessageRow) (cid : Nat)
    (h : ∀ m ∈ new, m.conversation_id ≠ cid) :
    transcriptRows (msgs ++ new) cid = transcriptRows msgs cid := by
  unfold transcriptRows
  rw [List.filter_append]
  have hnil : new.filter (fun m => m.conversation_id == cid) = [] :=
    List.filter_eq_nil_iff.mpr fun m hm => by simpa using h m hm
  rw [hnil, List.append_nil]

theorem transcriptRows_append_only (msgs new : List MessageRow) (cid : Nat)
    (h : ∀ m ∈ msgs, m.conversation_id ≠ cid)
    (h2 : ∀ m ∈ new, m.conversation_id = cid) :
    transcriptRows (msgs ++ new) cid = new.map fun m => (m.role, m.content) := by
  unfold transcriptRows
  rw [List.filter_append, List.filter_eq_nil_iff.mpr fun m hm => by simpa using h m hm,
    List.nil_append, List.filter_eq_self.mpr fun m hm => by simpa using h2 m hm]

/-- C5: on a state whose implicit current chat is saveable, performing the
save operation once per entry of `times` leaves the chat histories, the
session registry, the three current-chat globals and the chat-id counter
unchanged, and appends one durable conversation record per call — each under
a fresh, pairwise-distinct autoincrement id — every one carrying the same
transcript, namely the active chat's history (no deduplication); previously
persisted transcripts are untouched. -/
theorem saveIter_repeated_saves (times : List ℤ) (st : AppState) (p : Persona)
    (h : (!st.active_chat.isSome || !truthyOptStr st.current_persona ||
      !truthyOptStr st.current_session_name) = false)
    (hp : lookupPersona (st.current_persona.getD "") = some p)
    (hwf : ∀ m ∈ st.db.messages, m.conversation_id < st.db.nextConvId) :
    (saveIter times st).chats = st.chats ∧
    (saveIter times st).sessions = st.sessions ∧
    (saveIter times st).active_chat = st.active_chat ∧
    (saveIter times st).current_persona = st.current_persona ∧
    (saveIter times st).current_session_name = st.current_session_name ∧
    (saveIter times st).nextChatId = st.nextChatId ∧
    (saveIter times st).db.nextConvId = st.db.nextConvId + times.length ∧
    (saveIter times st).db.conversations.map ConversationRow.id =
      st.db.conversations.map ConversationRow.id ++
        List.range' st.db.nextConvId times.length ∧
    (∀ cid, cid < st.db.nextConvId →
      transcriptOf (saveIter times st).db cid = transcriptOf st.db cid) ∧
    (∀ k, k < times.length →
      transcriptOf (saveIter times st).db (st.db.nextConvId + k) =
        (chatHistory st.chats (st.active_chat.getD 0)).map fun m => (m.role, m.text)) ∧
    (∀ m ∈ (saveIter times st).db.messages,
      m.conversation_id < (saveIter times st).db.nextConvId) := by
  induction times generalizing st with
  | nil =>
    refine ⟨rfl, rfl, rfl, rfl, rfl, rfl, by simp [saveIter], by simp [saveIter, List.range'],
      fun cid _ => rfl, fun k hk => absurd hk (by simp), hwf⟩
  | cons t rest ih =>
    have hstep := save_chat_valid_eq t st p h hp
    have hiter : saveIter (t :: rest) st = saveIter rest (save_chat t st).2 := rfl
    rw [hiter, hstep]
    have hwf1 : ∀ m ∈ (st.db.messages ++ (chatHistory st.chats (st.active_chat.getD 0)).map
        (fun m => MessageRow.mk st.db.nextConvId m.role m.text t)),
        m.conversation_id < st.db.nextConvId + 1 := by
      intro m hm
      rcases List.mem_append.mp hm with hm | hm
      · have := hwf m hm
        omega
      · obtain ⟨x, hx, rfl⟩ := List.mem_map.mp hm
        show st.db.nextConvId < st.db.nextConvId + 1
        omega
    obtain ⟨ih1, ih2, ih3, ih4, ih5, ih6, ih7, ih8, ih9, ih10, ih11⟩ :=
      ih { st with db :=
        ⟨st.db.conversations ++ [⟨st.db.nextConvId, st.current_session_name.getD "",
            p.name, t, t⟩],
          st.db.messages ++ (chatHistory st.chats (st.active_chat.getD 0)).map
            (fun m => MessageRow.mk st.db.nextConvId m.role m.text t),
          st.db.nextConvId + 1⟩ } h hp hwf1
    refine ⟨ih1, ih2, ih3, ih4, ih5, ih6, ?_, ?_, ?_, ?_, ih11⟩
    · rw [ih7]
      simp only [List.length_cons]
      omega
    · rw [ih8]
      simp only [List.map_append, List.map_cons, List.map_nil, List.length_cons]
      rw [List.range'_succ st.db.nextConvId rest.length 1]
      simp [List.append_assoc]
    · intro cid hcid
      rw [ih9 cid (by show cid < st.db.nextConvId + 1; omega)]
      unfold transcriptOf
      exact transcriptRows_append_irrelevant _ _ cid fun m hm => by
        obtain ⟨x, hx, rfl⟩ := List.mem_map.mp hm
        show st.db.nextConvId ≠ cid
        omega
    · intro k hk
      match k with
      | 0 =>
        rw [ih9 (st.db.nextConvId + 0)
          (by show st.db.nextConvId + 0 < st.db.nextConvId + 1; omega)]
        unfold transcriptOf
        rw [show st.db.nextConvId + 0 = st.db.nextConvId from rfl]
        rw [transcriptRows_append_only _ _ st.db.nextConvId
          (fun m hm => by have := hwf m hm; omega)
          (fun m hm => by obtain ⟨x, hx, rfl⟩ := List.mem_map.mp hm; rfl)]
        rw [List.map_map]
        rfl
      | k + 1 =>
        have := ih10 k (by simp at hk; omega)
        rw [show st.db.nextConvId + (k + 1) = st.db.nextConvId + 1 + k by omega]
        exact this

/-- Witness for C5: two repeated saves of a one-turn session append the two
distinct conversation ids 1 and 2, both carrying the same transcript, while
the registry and the chat history are untouched. -/
theorem saveIter_repeated_saves_witness :
    (saveIter [5, 6] ⟨[(0, [⟨"user", "Hi"⟩])], 1, some 0, some "3", some "N",
        [("sid", ⟨0, "3", "N"⟩)], emptyDB⟩).db.conversations.map ConversationRow.id =
      [1, 2] ∧
    (saveIter [5, 6] ⟨[(0, [⟨"user", "Hi"⟩])], 1, some 0, some "3", some "N",
        [("sid", ⟨0, "3", "N"⟩)], emptyDB⟩).sessions = [("sid", ⟨0, "3", "N"⟩)] ∧
    transcriptOf (saveIter [5, 6] ⟨[(0, [⟨"user", "Hi"⟩])], 1, some 0, some "3", some "N",
        [("sid", ⟨0, "3", "N"⟩)], emptyDB⟩).db 1 = [("user", "Hi")] ∧
    transcriptOf (saveIter [5, 6] ⟨[(0, [⟨"user", "Hi"⟩])], 1, some 0, some "3", some "N",
        [("sid", ⟨0, "3", "N"⟩)], emptyDB⟩).db 2 = [("user", "Hi")] :=
  ⟨(saveIter_repeated_saves [5, 6] ⟨[(0, [⟨"user", "Hi"⟩])], 1, some 0, some "3", some "N",
        [("sid", ⟨0, "3", "N"⟩)], emptyDB⟩ _ (by decide) rfl (by decide)).2.2.2.2.2.2.2.1,
   (saveIter_repeated_saves [5, 6] ⟨[(0, [⟨"user", "Hi"⟩])], 1, some 0, some "3", some "N",
        [("sid", ⟨0, "3", "N"⟩)], emptyDB⟩ _ (by decide) rfl (by decide)).2.1,
   (saveIter_repeated_saves [5, 6] ⟨[(0, [⟨"user", "Hi"⟩])], 1, some 0, some "3", some "N",
        [("sid", ⟨0, "3", "N"⟩)], emptyDB⟩ _ (by decide) rfl (by decide)).2.2.2.2.2.2.2.2.2.1
     0 (by decide),
   (saveIter_repeated_saves [5, 6] ⟨[(0, [⟨"user", "Hi"⟩])], 1, some 0, some "3", some "N",
        [("sid", ⟨0, "3", "N"⟩)], emptyDB⟩ _ (by decide) rfl (by decide)).2.2.2.2.2.2.2.2.2.1
     1 (by decide)⟩

/-- C6, counterexample: a request that supplies the session id `""` — a key
not present in the registry — is not answered by `UNKNOWN_SESSION`: Python
string truthiness routes it to the implicit current chat, the exchange
proceeds, and the current chat's turn history is mutated. -/
theorem send_empty_session_id_counterexample :
    (api_chat_send "ip" (some "Hi") (some "") (Except.ok ⟨1, [⟨"Yo"⟩], "Yo"⟩) 0
        ⟨[(0, [])], 1, some 0, some "1", some "S", [("other", ⟨0, "1", "S"⟩)], emptyDB⟩
        emptyRateStore).1 = SendResult.classified (SendOutcome.Success "Yo") ∧
    (api_chat_send "ip" (some "Hi") (some "") (Except.ok ⟨1, [⟨"Yo"⟩], "Yo"⟩) 0
        ⟨[(0, [])], 1, some 0, some "1", some "S", [("other", ⟨0, "1", "S"⟩)], emptyDB⟩
        emptyRateStore).2.1.chats = [(0, [⟨"user", "Hi"⟩, ⟨"model", "Yo"⟩])] := by
  decide

/-- C6, amended: for every send request that passes the rate limit, a falsy
(missing or empty) message yields `MISSING_MESSAGE`; a supplied non-empty
session id that is not in the registry yields `UNKNOWN_SESSION` with the
whole state — registry and histories included — unchanged; a falsy (omitted
or empty) session id with no implicit current chat yields `NO_ACTIVE_CHAT`;
and the message check precedes the session checks. -/
theorem api_chat_send_error_paths (client_ip : String) (message session_id : Option String)
    (exchange : Except String ProviderResponse) (now : ℤ) (st : AppState) (rs : RateStore)
    (hrate : (check_rate_limit RateKind.send client_ip now rs).1 = true) :
    (truthyOptStr message = false →
      api_chat_send client_ip message session_id exchange now st rs =
        (SendResult.missingMessage, st, (check_rate_limit RateKind.send client_ip now rs).2)) ∧
    (∀ s, truthyOptStr message = true → session_id = some s → s ≠ "" →
      lookupSession st.sessions s = none →
      api_chat_send client_ip message session_id exchange now st rs =
        (SendResult.unknownSession, st, (check_rate_limit RateKind.send client_ip now rs).2)) ∧
    (truthyOptStr message = true → truthyOptStr session_id = false → st.active_chat = none →
      api_chat_send client_ip message session_id exchange now st rs =
        (SendResult.noActiveChat, st, (check_rate_limit RateKind.send client_ip now rs).2)) := by
  refine ⟨?_, ?_, ?_⟩
  · intro hm
    simp only [api_chat_send]
    rw [if_neg (by simp [hrate]), if_pos hm]
  · intro s hm hsid hs hlook
    subst hsid
    simp only [api_chat_send]
    rw [if_neg (by simp [hrate]), if_neg (by simp [hm]),
      if_pos (by simp [truthyOptStr, hs]), Option.getD_some, hlook]
  · intro hm hsid hac
    simp only [api_chat_send]
    rw [if_neg (by simp [hrate]), if_neg (by simp [hm]), if_neg (by simp [hsid]), hac]

/-- Witness for C6's amended theorem: the three error paths at concrete
requests against the initial state. -/
theorem api_chat_send_error_paths_witness :
    api_chat_send "ip" (some "") none (Except.error "e") 0 initialAppState emptyRateStore =
      (SendResult.missingMessage, initialAppState,
        (check_rate_limit RateKind.send "ip" 0 emptyRateStore).2) ∧
    api_chat_send "ip" (some "Hi") (some "nonexistent") (Except.error "e") 0 initialAppState
        emptyRateStore =
      (SendResult.unknownSession, initialAppState,
        (check_rate_limit RateKind.send "ip" 0 emptyRateStore).2) ∧
    api_chat_send "ip" (some "Hi") none (Except.error "e") 0 initialAppState emptyRateStore =
      (SendResult.noActiveChat, initialAppState,
        (check_rate_limit RateKind.send "ip" 0 emptyRateStore).2) :=
  ⟨(api_chat_send_error_paths "ip" (some "") none (Except.error "e") 0 initialAppState
      emptyRateStore (by decide)).1 rfl,
   (api_chat_send_error_paths "ip" (some "Hi") (some "nonexistent") (Except.error "e") 0
      initialAppState emptyRateStore (by decide)).2.1 "nonexistent" rfl rfl (by decide) rfl,
   (api_chat_send_error_paths "ip" (some "Hi") none (Except.error "e") 0 initialAppState
      emptyRateStore (by decide)).2.2 rfl rfl rfl⟩

/-- C7: for every start request, a rate-limit denial yields `RATE_LIMITED`
with no session created (state unchanged); with the API key configured, an
unknown or missing persona key yields `INVALID_PERSONA` (before the name is
looked at), a falsy display name after a valid persona yields the
missing-session-name error, and a failure while constructing the provider
conversation context is caught and returned as `START_EXCEPTION` carrying
the underlying failure's message, with the state unchanged — the route never
lets the exception escape. -/
theorem api_chat_start_checks_order (client_ip : String) (api_key_present : Bool)
    (persona_key session_name : Option String) (model_construction : Except String Unit)
    (sid : String) (now : ℤ) (st : AppState) (rs : RateStore) :
    ((check_rate_limit RateKind.start client_ip now rs).1 = false →
      api_chat_start client_ip api_key_present persona_key session_name model_construction
          sid now st rs =
        (StartResult.rateLimited, st, (check_rate_limit RateKind.start client_ip now rs).2)) ∧
    ((check_rate_limit RateKind.start client_ip now rs).1 = true → api_key_present = true →
      (persona_key = none ∨ ∃ pk, persona_key = some pk ∧ lookupPersona pk = none) →
      api_chat_start client_ip api_key_present persona_key session_name model_construction
          sid now st rs =
        (StartResult.invalidPersona, st, (check_rate_limit RateKind.start client_ip now rs).2)) ∧
    (∀ pk p, (check_rate_limit RateKind.start client_ip now rs).1 = true →
      api_key_present = true → persona_key = some pk → lookupPersona pk = some p →
      truthyOptStr session_name = false →
      api_chat_start client_ip api_key_present persona_key session_name model_construction
          sid now st rs =
        (StartResult.missingSessionName, st,
          (check_rate_limit RateKind.start client_ip now rs).2)) ∧
    (∀ pk p e, (check_rate_limit RateKind.start client_ip now rs).1 = true →
      api_key_present = true → persona_key = some pk → lookupPersona pk = some p →
      truthyOptStr session_name = true → model_construction = Except.error e →
      api_chat_start client_ip api_key_present persona_key session_name model_construction
          sid now st rs =
        (StartResult.startException e, st,
          (check_rate_limit RateKind.start client_ip now rs).2)) := by
  refine ⟨?_, ?_, ?_, ?_⟩
  · intro hr
    simp only [api_chat_start]
    rw [if_pos hr]
  · intro hr hk hbad
    simp only [api_chat_start]
    rw [if_neg (by simp [hr]), if_neg (by simp [hk])]
    rcases hbad with rfl | ⟨pk, rfl, hnone⟩
    · rfl
    · simp only [hnone]
  · intro pk p hr hk hpk hp hsn
    subst hpk
    simp only [api_chat_start, hp]
    rw [if_neg (by simp [hr]), if_neg (by simp [hk]), if_pos hsn]
  · intro pk p e hr hk hpk hp hsn hc
    subst hpk
    subst hc
    simp only [api_chat_start, hp]
    rw [if_neg (by simp [hr]), if_neg (by simp [hk]), if_neg (by simp [hsn])]

/-- Witness for C7: the four paths at concrete requests — a denied limiter
(full window), an unknown persona key, an empty session name, and a failing
provider construction. -/
theorem api_chat_start_checks_order_witness :
    api_chat_start "ip" true (some "1") (some "N") (Except.ok ()) "sid" 10 initialAppState
        (fun _ _ => [0, 1, 2, 3, 4]) =
      (StartResult.rateLimited, initialAppState, fun _ _ => [0, 1, 2, 3, 4]) ∧
    api_chat_start "ip" true (some "9") (some "N") (Except.ok ()) "sid" 0 initialAppState
        emptyRateStore =
      (StartResult.invalidPersona, initialAppState,
        (check_rate_limit RateKind.start "ip" 0 emptyRateStore).2) ∧
    api_chat_start "ip" true (some "1") (some "") (Except.ok ()) "sid" 0 initialAppState
        emptyRateStore =
      (StartResult.missingSessionName, initialAppState,
        (check_rate_limit RateKind.start "ip" 0 emptyRateStore).2) ∧
    api_chat_start "ip" true (some "1") (some "N") (Except.error "boom") "sid" 0 initialAppState
        emptyRateStore =
      (StartResult.startException "boom", initialAppState,
        (check_rate_limit RateKind.start "ip" 0 emptyRateStore).2) :=
  ⟨(api_chat_start_checks_order "ip" true (some "1") (some "N") (Except.ok ()) "sid" 10
      initialAppState (fun _ _ => [0, 1, 2, 3, 4])).1 (by decide),
   (api_chat_start_checks_order "ip" true (some "9") (some "N") (Except.ok ()) "sid" 0
      initialAppState emptyRateStore).2.1 (by decide) rfl (Or.inr ⟨"9", rfl, rfl⟩),
   (api_chat_start_checks_order "ip" true (some "1") (some "") (Except.ok ()) "sid" 0
      initialAppState emptyRateStore).2.2.1 "1" _ (by decide) rfl rfl rfl rfl,
   (api_chat_start_checks_order "ip" true (some "1") (some "N") (Except.error "boom") "sid" 0
      initialAppState emptyRateStore).2.2.2 "1" _ "boom" (by decide) rfl rfl rfl rfl rfl⟩

theorem find_in_map_set (sid : String) (v : SessionData) :
    ∀ (l : List (String × SessionData)), (l.any fun p => p.1 == sid) = true →
      (l.map fun p => if p.1 == sid then (sid, v) else p).find? (fun p => p.1 == sid) =
        some (sid, v) := by
  intro l h
  induction l with
  | nil => simp at h
  | cons a l ih =>
    by_cases ha : a.1 = sid
    · simp [List.find?_cons, ha]
    · have ha' : (a.1 == sid) = false := beq_eq_false_iff_ne.mpr ha
      simp only [List.any_cons, ha', Bool.false_or] at h
      have hhead : (if (a.1 == sid) = true then (sid, v) else a) = a := by simp [ha']
      rw [List.map_cons, hhead, List.find?_cons]
      simp only [ha']
      exact ih h

theorem find_in_appended (sid : String) (v : SessionData) :
    ∀ (l : List (String × SessionData)), (l.any fun p => p.1 == sid) = false →
      (l ++ [(sid, v)]).find? (fun p => p.1 == sid) = some (sid, v) := by
  intro l h
  induction l with
  | nil => simp [List.find?_cons]
  | cons a l ih =>
    simp only [List.any_cons, Bool.or_eq_false_iff] at h
    simp [List.find?_cons, h.1, ih h.2]

/-- Helper: after the dict assignment `sessions[sid] = v`, looking `sid` up
yields `v`. -/
theorem lookupSession_setSession_same (sessions : List (String × SessionData))
    (sid : String) (v : SessionData) :
    lookupSession (setSession sessions sid v) sid = some v := by
  unfold lookupSession setSession
  by_cases h : (sessions.any fun p => p.1 == sid) = true
  · rw [if_pos h, find_in_map_set sid v sessions h]
    rfl
  · have h' : (sessions.any fun p => p.1 == sid) = false := by
      revert h
      cases sessions.any fun p => p.1 == sid <;> simp
    rw [if_neg h, find_in_appended sid v sessions h']
    rfl

/-- C9: a successful start overwrites the three process-wide current-chat
globals with the newly created session (whose id also maps to that same chat
object in the registry); the save route takes no session identifier and its
behaviour is invariant under arbitrary replacement of the session registry;
and on a saveable state the transcript it persists is exactly the history of
the chat the `active_chat` global points to — hence always that of the most
recently started session, whichever session id the client holds. -/
theorem start_sets_globals_save_reads_them (client_ip : String) (pk sn sid : String)
    (p : Persona) (now : ℤ) (st : AppState) (rs : RateStore)
    (hrate : (check_rate_limit RateKind.start client_ip now rs).1 = true)
    (hp : lookupPersona pk = some p)
    (hsn : sn ≠ "") :
    (api_chat_start client_ip true (some pk) (some sn) (Except.ok ()) sid now st rs =
      (StartResult.started sid,
        { st with
          chats := st.chats ++ [(st.nextChatId, [])],
          nextChatId := st.nextChatId + 1,
          sessions := setSession st.sessions sid ⟨st.nextChatId, pk, sn⟩,
          active_chat := some st.nextChatId,
          current_persona := some pk,
          current_session_name := some sn },
        (check_rate_limit RateKind.start client_ip now rs).2) ∧
      lookupSession (setSession st.sessions sid ⟨st.nextChatId, pk, sn⟩) sid =
        some ⟨st.nextChatId, pk, sn⟩) ∧
    (∀ (now2 : ℤ) (S : List (String × SessionData)),
      save_chat now2 { st with sessions := S } =
        ((save_chat now2 st).1, { (save_chat now2 st).2 with sessions := S })) ∧
    (∀ (q : Persona),
      (!st.active_chat.isSome || !truthyOptStr st.current_persona ||
        !truthyOptStr st.current_session_name) = false →
      lookupPersona (st.current_persona.getD "") = some q →
      (∀ m ∈ st.db.messages, m.conversation_id < st.db.nextConvId) →
      transcriptOf (save_chat now st).2.db st.db.nextConvId =
        (chatHistory st.chats (st.active_chat.getD 0)).map fun m => (m.role, m.text)) := by
  refine ⟨⟨?_, lookupSession_setSession_same st.sessions sid ⟨st.nextChatId, pk, sn⟩⟩, ?_, ?_⟩
  · simp only [api_chat_start, hp]
    rw [if_neg (by simp [hrate]), if_neg (by simp),
      if_neg (by simp [truthyOptStr, hsn])]
    rfl
  · intro now2 S
    simp only [save_chat]
    by_cases hcond : (!st.active_chat.isSome || !truthyOptStr st.current_persona ||
        !truthyOptStr st.current_session_name) = true
    · rw [if_pos hcond, if_pos hcond]
    · rw [if_neg hcond, if_neg hcond]
      cases hq : lookupPersona (st.current_persona.getD "") <;> simp [hq]
  · intro q hcond hq hwf
    rw [save_chat_valid_eq now st q hcond hq]
    unfold transcriptOf
    rw [transcriptRows_append_only _ _ st.db.nextConvId
      (fun m hm => by have := hwf m hm; omega)
      (fun m hm => by obtain ⟨x, hx, rfl⟩ := List.mem_map.mp hm; rfl)]
    rw [List.map_map]
    rfl

/-- Witness for C9: a concrete start against the initial state overwrites the
globals; replacing the registry does not change what a save does; a saveable
one-turn state persists the active chat's transcript. -/
theorem start_sets_globals_save_reads_them_witness :
    api_chat_start "ip" true (some "1") (some "Test") (Except.ok ()) "S1" 0 initialAppState
        emptyRateStore =
      (StartResult.started "S1",
        ⟨[(0, [])], 1, some 0, some "1", some "Test", [("S1", ⟨0, "1", "Test"⟩)], emptyDB⟩,
        (check_rate_limit RateKind.start "ip" 0 emptyRateStore).2) ∧
    save_chat 3 { initialAppState with sessions := [("x", ⟨0, "1", "N"⟩)] } =
      ((save_chat 3 initialAppState).1,
        { (save_chat 3 initialAppState).2 with sessions := [("x", ⟨0, "1", "N"⟩)] }) ∧
    transcriptOf (save_chat 0 ⟨[(0, [⟨"user", "Hi"⟩])], 1, some 0, some "1", some "S",
        [], emptyDB⟩).2.db 1 = [("user", "Hi")] :=
  ⟨((start_sets_globals_save_reads_them "ip" "1" "Test" "S1" _ 0 initialAppState
      emptyRateStore (by decide) rfl (by decide)).1).1,
   (start_sets_globals_save_reads_them "ip" "1" "Test" "S1" _ 0 initialAppState
      emptyRateStore (by decide) rfl (by decide)).2.1 3 [("x", ⟨0, "1", "N"⟩)],
   (start_sets_globals_save_reads_them "ip" "1" "Test" "S1" _ 0
      ⟨[(0, [⟨"user", "Hi"⟩])], 1, some 0, some "1", some "S", [], emptyDB⟩
      emptyRateStore (by decide) rfl (by decide)).2.2 _ (by decide) rfl (by decide)⟩
